import Mathlib

/-!
Verification of the row-to-record mapping and batching pipeline of
`load_zip_codes_to_mongo.py`.

The script ingests tab-separated postal files for Spain, the US and Canada,
maps each row to a flat record via a per-country mapper
(`map_es_fields`, `map_us_fields`, `map_ca_fields_flexible`), and loads the
records into per-country collections in batches of 10000 (`process_file`).

Shallow embedding conventions:
* a row is a `List String` (the tab-split cells of one line);
* Python exceptions are modelled by `Except MapErr`; `MapErr.indexError`
  models `IndexError` (out-of-range `row[i]`), `MapErr.valueError msg`
  models `ValueError` (failed `float`/`int` conversion, or the explicit
  `raise ValueError` of the Canada mapper);
* a Python dict value of `None` and an omitted key are both modelled as
  `none` (the spec treats both as the single state "absent");
* the result of Python `float()` on a decimal literal is modelled exactly as
  its decimal significand and exponent (`PyFloat.finite mant exp10`, value
  `mant * 10 ^ exp10`), avoiding binary floating point; every comparison in
  the claims is between parses of identical decimal literals, for which this
  representation is faithful;
* the database is modelled as the list of operations issued against one
  collection (`DbOp.drop`, `DbOp.insertMany`) together with their effect on
  the collection contents (`applyOps`); `os.path.exists` is modelled as the
  boolean argument `fileExists` of `process_file_run`.
-/

deriving instance DecidableEq for Except

/-- Python exception kinds raised inside a field mapper:
`IndexError` from an out-of-range `row[i]`, or `ValueError` from a failed
numeric conversion / the Canada mapper's explicit `raise ValueError`. -/
inductive MapErr where
  | indexError
  | valueError (msg : String)
deriving DecidableEq

/-- Whether an exception is a `ValueError` (a "value-conversion error"). -/
def MapErr.isValueError : MapErr → Bool
  | .valueError _ => true
  | .indexError => false

/-- The result of Python `float()`: a finite decimal value `mant * 10 ^ exp10`,
an infinity, or a NaN.  The significand/exponent pair records the decimal
literal exactly (no binary rounding). -/
inductive PyFloat where
  | finite (mant : Int) (exp10 : Int)
  | inf (neg : Bool)
  | nan
deriving DecidableEq

/-- Python `row[i]` on a list: the element when `i` is in range, otherwise an
`IndexError`. -/
def getCell : List String → Nat → Except MapErr String
  | [], _ => .error .indexError
  | s :: _, 0 => .ok s
  | _ :: t, n + 1 => getCell t n

/-- Python `str.strip()` on a character list (ASCII whitespace model). -/
def stripChars (cs : List Char) : List Char :=
  ((cs.dropWhile Char.isWhitespace).reverse.dropWhile Char.isWhitespace).reverse

/-- The numeric value of a list of decimal digit characters. -/
def natOfDigits (ds : List Char) : Nat :=
  ds.foldl (fun n c => n * 10 + (c.toNat - 48)) 0

/-- Parse an unsigned float body (after sign removal): `digits`, `digits.`,
`.digits`, `digits.digits`, each optionally followed by an exponent part
`e`/`E`, optional sign, digits.  Returns the decimal significand and the
power-of-ten exponent, or `none` when the body is not a float literal. -/
def parseUnsignedFloatBody (cs : List Char) : Option (Nat × Int) :=
  let ip := cs.takeWhile Char.isDigit
  let r1 := cs.dropWhile Char.isDigit
  let fp := match r1 with
    | '.' :: t => t.takeWhile Char.isDigit
    | _ => []
  let r2 := match r1 with
    | '.' :: t => t.dropWhile Char.isDigit
    | _ => r1
  if ip = [] ∧ fp = [] then none
  else
    let mant := natOfDigits (ip ++ fp)
    let base : Int := -(fp.length : Int)
    match r2 with
    | [] => some (mant, base)
    | c :: t =>
      if c = 'e' ∨ c = 'E' then
        let eneg : Bool := match t with | '-' :: _ => true | _ => false
        let t2 : List Char := match t with
          | '+' :: u => u
          | '-' :: u => u
          | u => u
        let ed := t2.takeWhile Char.isDigit
        let r3 := t2.dropWhile Char.isDigit
        if ed = [] ∨ r3 ≠ [] then none
        else
          let ev : Int := if eneg then -(natOfDigits ed : Int) else (natOfDigits ed : Int)
          some (mant, base + ev)
      else none

/-- Model of Python `float(s)`: strip whitespace, take an optional sign, then
either an infinity/NaN keyword or a decimal literal.  `none` models a raised
`ValueError`. -/
def pyFloat (s : String) : Option PyFloat :=
  let cs := stripChars s.toList
  let sgnNeg : Bool := match cs with | '-' :: _ => true | _ => false
  let body : List Char := match cs with
    | '+' :: t => t
    | '-' :: t => t
    | t => t
  let low := body.map Char.toLower
  if low = "inf".toList ∨ low = "infinity".toList then some (PyFloat.inf sgnNeg)
  else if low = "nan".toList then some PyFloat.nan
  else
    match parseUnsignedFloatBody body with
    | some (m, e) =>
      some (PyFloat.finite (if sgnNeg then -(m : Int) else (m : Int)) e)
    | none => none

/-- Model of Python `int(s)`: strip whitespace, optional sign, decimal digits.
`none` models a raised `ValueError`. -/
def pyInt (s : String) : Option Int :=
  let cs := stripChars s.toList
  let sgnNeg : Bool := match cs with | '-' :: _ => true | _ => false
  let body : List Char := match cs with
    | '+' :: t => t
    | '-' :: t => t
    | t => t
  let ds := body.takeWhile Char.isDigit
  let r := body.dropWhile Char.isDigit
  if ds = [] ∨ r ≠ [] then none
  else some (if sgnNeg then -(natOfDigits ds : Int) else (natOfDigits ds : Int))

/-- The normalized output record.  Every mapper in the source produces these
fields; a Python `None` value and an omitted dict key are both `none`. -/
structure Record where
  country_code : String
  postal_code : String
  place_name : String
  admin1_name : Option String
  admin1_code : Option String
  admin2_name : Option String
  admin2_code : Option String
  admin3_name : Option String
  admin3_code : Option String
  latitude : Option PyFloat
  longitude : Option PyFloat
  accuracy : Option Int
deriving DecidableEq

/-- Python `s if s else None` on a string cell: non-empty cells are kept,
the empty (falsy) string becomes `None`. -/
def optStrCell (s : String) : Option String :=
  if s = "" then none else some s

/-- Python `float(s) if s else None`: `None` for an empty cell, the parsed
value otherwise, raising `ValueError` when the non-empty cell is unparsable. -/
def optFloatCell (s : String) : Except MapErr (Option PyFloat) :=
  if s = "" then .ok none
  else match pyFloat s with
    | some v => .ok (some v)
    | none => .error (.valueError ("could not convert string to float: " ++ s))

/-- Python `int(s) if s else None`: `None` for an empty cell, the parsed
value otherwise, raising `ValueError` when the non-empty cell is unparsable. -/
def optIntCell (s : String) : Except MapErr (Option Int) :=
  if s = "" then .ok none
  else match pyInt s with
    | some v => .ok (some v)
    | none => .error (.valueError ("invalid literal for int() with base 10: " ++ s))

/-- `map_es_fields` of the source: the Spain mapper.  Cell accesses and
numeric conversions happen in the order of the Python dict literal. -/
def map_es_fields (row : List String) : Except MapErr Record := do
  let c0 ← getCell row 0
  let c1 ← getCell row 1
  let c2 ← getCell row 2
  let c3 ← getCell row 3
  let c4 ← getCell row 4
  let c5 ← getCell row 5
  let c6 ← getCell row 6
  let c7 ← getCell row 7
  let c8 ← getCell row 8
  let c9 ← getCell row 9
  let lat ← optFloatCell c9
  let c10 ← getCell row 10
  let lon ← optFloatCell c10
  let c11 ← getCell row 11
  let acc ← optIntCell c11
  pure {
    country_code := c0, postal_code := c1, place_name := c2,
    admin1_name := some c3, admin1_code := some c4,
    admin2_name := some c5, admin2_code := some c6,
    admin3_name := optStrCell c7, admin3_code := optStrCell c8,
    latitude := lat, longitude := lon, accuracy := acc }

/-- `map_us_fields` of the source: the US mapper.  Cells 7 and 8 are never
read and no admin3 keys are produced (modelled as `none`). -/
def map_us_fields (row : List String) : Except MapErr Record := do
  let c0 ← getCell row 0
  let c1 ← getCell row 1
  let c2 ← getCell row 2
  let c3 ← getCell row 3
  let c4 ← getCell row 4
  let c5 ← getCell row 5
  let c6 ← getCell row 6
  let c9 ← getCell row 9
  let lat ← optFloatCell c9
  let c10 ← getCell row 10
  let lon ← optFloatCell c10
  let c11 ← getCell row 11
  let acc ← optIntCell c11
  pure {
    country_code := c0, postal_code := c1, place_name := c2,
    admin1_name := some c3, admin1_code := some c4,
    admin2_name := some c5, admin2_code := some c6,
    admin3_name := none, admin3_code := none,
    latitude := lat, longitude := lon, accuracy := acc }

/-- The `try`/`except (IndexError, ValueError)` block of the Canada mapper
around the three sequential assignments to `latitude`, `longitude`,
`accuracy`: assignments made before the failing conversion keep their
values, the failing and following assignments never happen, and the
exception is swallowed. -/
def caTryNums (doc : Record) (latCell lonCell accCell : String) : Record :=
  match optFloatCell latCell with
  | .error _ => doc
  | .ok lat =>
    let d1 := { doc with latitude := lat }
    match optFloatCell lonCell with
    | .error _ => d1
    | .ok lon =>
      let d2 := { d1 with longitude := lon }
      match optIntCell accCell with
      | .error _ => d2
      | .ok acc => { d2 with accuracy := acc }

/-- `map_ca_fields_flexible` of the source: the Canada mapper.  Cells 0-2 are
read unconditionally (an `IndexError` on short rows propagates), cells 3-4
are guarded by length checks, then the layout is chosen by the exact row
length; any other length raises a `ValueError` naming the count. -/
def map_ca_fields_flexible (row : List String) : Except MapErr Record := do
  let c0 ← getCell row 0
  let c1 ← getCell row 1
  let c2 ← getCell row 2
  let a1n := if h : 3 < row.length then optStrCell (row.get ⟨3, h⟩) else none
  let a1c := if h : 4 < row.length then optStrCell (row.get ⟨4, h⟩) else none
  let base : Record := {
    country_code := c0, postal_code := c1, place_name := c2,
    admin1_name := a1n, admin1_code := a1c,
    admin2_name := none, admin2_code := none,
    admin3_name := none, admin3_code := none,
    latitude := none, longitude := none, accuracy := none }
  if h10 : row.length = 10 then
    pure (caTryNums
      { base with
        admin2_name := optStrCell (row.get ⟨5, by omega⟩),
        admin2_code := optStrCell (row.get ⟨6, by omega⟩) }
      (row.get ⟨7, by omega⟩) (row.get ⟨8, by omega⟩) (row.get ⟨9, by omega⟩))
  else if h12 : row.length = 12 then
    pure (caTryNums
      { base with
        admin2_name := optStrCell (row.get ⟨5, by omega⟩),
        admin2_code := optStrCell (row.get ⟨6, by omega⟩),
        admin3_name := optStrCell (row.get ⟨7, by omega⟩),
        admin3_code := optStrCell (row.get ⟨8, by omega⟩) }
      (row.get ⟨9, by omega⟩) (row.get ⟨10, by omega⟩) (row.get ⟨11, by omega⟩))
  else
    throw (MapErr.valueError
      ("Unexpected number of columns (" ++ toString row.length ++ ") for CA data mapper."))

/-- Whether an `Except` computation succeeded (no exception raised). -/
def isOkE {α : Type} : Except MapErr α → Bool
  | .ok _ => true
  | .error _ => false

/-- Python `str.isalpha()`: non-empty and all characters alphabetic
(ASCII model). -/
def pyStrIsAlpha (s : String) : Bool :=
  !s.isEmpty && s.toList.all Char.isAlpha

/-- Python `str.isdigit()`: non-empty and all characters digits
(ASCII model). -/
def pyStrIsDigit (s : String) : Bool :=
  !s.isEmpty && s.toList.all Char.isDigit

/-- The header heuristic of `process_file` line 65:
`any(s.isalpha() for s in row) and not any(s.isdigit() for s in row[:2])`. -/
def isLikelyHeader (row : List String) : Bool :=
  row.any pyStrIsAlpha && !((row.take 2).any pyStrIsDigit)

/-- The mutable loop state of `process_file`: the pending batch `documents`,
the bulk writes issued so far (each one `insert_many` call), and the two
counters. -/
structure PState where
  documents : List Record
  writes : List (List Record)
  processed : Nat
  skipped : Nat
deriving DecidableEq

/-- Which log message one row produced (print statements of lines 59, 62,
67, 69); only the wording differs, never the data outcome. -/
inductive RowLog where
  | mapped
  | convError
  | unexpectedError
  | likelyHeader
  | malformed
deriving DecidableEq

/-- Lines 72-75 of `process_file`: after each row, if the pending batch has
reached 10000 documents it is bulk-written and cleared. -/
def maybeFlush (st : PState) : PState :=
  if 10000 ≤ st.documents.length then
    { st with documents := [], writes := st.writes ++ [st.documents] }
  else st

/-- One iteration of the row loop of `process_file` (lines 52-75): classify
the row by column count, map it or count it skipped, then run the batch
threshold check. -/
def processRow (expected : List Nat) (mapper : List String → Except MapErr Record)
    (st : PState) (i : Nat) (row : List String) : PState × RowLog :=
  let step :=
    if row.length ∈ expected then
      match mapper row with
      | .ok doc =>
        ({ st with documents := st.documents ++ [doc], processed := st.processed + 1 },
          RowLog.mapped)
      | .error (.valueError _) => ({ st with skipped := st.skipped + 1 }, RowLog.convError)
      | .error .indexError => ({ st with skipped := st.skipped + 1 }, RowLog.unexpectedError)
    else
      ({ st with skipped := st.skipped + 1 },
        if i = 0 && isLikelyHeader row then RowLog.likelyHeader else RowLog.malformed)
  (maybeFlush step.1, step.2)

/-- The whole row loop of `process_file`, threading the state through every
row; `i` is the 0-based row index of `enumerate(reader)`. -/
def processRowsAux (expected : List Nat) (mapper : List String → Except MapErr Record) :
    PState → Nat → List (List String) → PState
  | st, _, [] => st
  | st, i, row :: rest =>
    processRowsAux expected mapper (processRow expected mapper st i row).1 (i + 1) rest

/-- The state before the first row: empty batch, no writes, zero counters. -/
def initState : PState :=
  { documents := [], writes := [], processed := 0, skipped := 0 }

/-- Lines 77-78 of `process_file`: after the last row, a final bulk write of
the remaining documents when there are any. -/
def finalizeState (st : PState) : PState :=
  if st.documents = [] then st
  else { st with documents := [], writes := st.writes ++ [st.documents] }

/-- One operation issued against a destination collection:
`collection.drop()` or `collection.insert_many(batch)`. -/
inductive DbOp where
  | drop
  | insertMany (docs : List Record)
deriving DecidableEq

/-- What one `process_file` call did: the operations issued against the
country's collection, in order, and the two reported counts. -/
structure FileResult where
  ops : List DbOp
  processed : Nat
  skipped : Nat
deriving DecidableEq

/-- `process_file` of the source: when the input file is missing, return at
once with no database operation (lines 38-40); otherwise drop the collection
(line 43), run the row loop, and issue the final partial bulk write. -/
def process_file_run (fileExists : Bool) (expected : List Nat)
    (mapper : List String → Except MapErr Record)
    (rows : List (List String)) : FileResult :=
  if fileExists then
    let st := finalizeState (processRowsAux expected mapper initState 0 rows)
    { ops := DbOp.drop :: st.writes.map DbOp.insertMany,
      processed := st.processed, skipped := st.skipped }
  else { ops := [], processed := 0, skipped := 0 }

/-- The effect of a list of operations on one collection's contents:
`drop` clears it, `insert_many` appends the batch. -/
def applyOps (contents : List Record) (ops : List DbOp) : List Record :=
  ops.foldl
    (fun c op =>
      match op with
      | DbOp.drop => []
      | DbOp.insertMany docs => c ++ docs)
    contents

/-- The records that a run over `rows` successfully maps, in row order:
rows with an accepted column count whose mapper call returns normally. -/
def mappedDocs (expected : List Nat) (mapper : List String → Except MapErr Record)
    (rows : List (List String)) : List Record :=
  rows.filterMap (fun r => if r.length ∈ expected then (mapper r).toOption else none)

/-- The acceptable column counts passed for `ES.txt` (line 171). -/
def es_expected_columns : List Nat := [12]

/-- The acceptable column counts passed for `US.txt` (line 175). -/
def us_expected_columns : List Nat := [12]

/-- The acceptable column counts passed for `CA_full.txt` (line 179). -/
def ca_expected_columns : List Nat := [10, 12]

/-- A well-formed 12-cell Spain row used by concrete instances. -/
def esSampleRow : List String :=
  ["ES", "28013", "Madrid", "Madrid", "MD", "Madrid", "M", "Centro", "28079",
    "40.4168", "-3.7038", "6"]

/-- The record the Spain mapper produces for `esSampleRow`. -/
def esSampleRec : Record := {
  country_code := "ES", postal_code := "28013", place_name := "Madrid",
  admin1_name := some "Madrid", admin1_code := some "MD",
  admin2_name := some "Madrid", admin2_code := some "M",
  admin3_name := some "Centro", admin3_code := some "28079",
  latitude := some (PyFloat.finite 404168 (-4)),
  longitude := some (PyFloat.finite (-37038) (-4)),
  accuracy := some 6 }

/-- A 12-cell Spain row whose cell 7 is empty and cell 8 is "CommunityX"
(the example of the claim). -/
def esCommunityRow : List String :=
  ["ES", "28013", "Madrid", "Madrid", "MD", "Madrid", "M", "", "CommunityX",
    "40.4168", "-3.7038", "6"]

/-- The record the Spain mapper produces for `esCommunityRow`. -/
def esCommunityRec : Record := {
  country_code := "ES", postal_code := "28013", place_name := "Madrid",
  admin1_name := some "Madrid", admin1_code := some "MD",
  admin2_name := some "Madrid", admin2_code := some "M",
  admin3_name := none, admin3_code := some "CommunityX",
  latitude := some (PyFloat.finite 404168 (-4)),
  longitude := some (PyFloat.finite (-37038) (-4)),
  accuracy := some 6 }

/-- A 12-cell Spain row whose latitude cell 9 is the unparsable "abc". -/
def esBadRow : List String :=
  ["ES", "28013", "Madrid", "Madrid", "MD", "Madrid", "M", "", "", "abc", "-3.7", "6"]

/-- The Beverly Hills row of the spec's end-to-end US example. -/
def usBeverlyRow : List String :=
  ["US", "90210", "Beverly Hills", "California", "CA", "Los Angeles", "037", "", "",
    "34.0901", "-118.4065", "4"]

/-- The record the US mapper produces for `usBeverlyRow`. -/
def usBeverlyRec : Record := {
  country_code := "US", postal_code := "90210", place_name := "Beverly Hills",
  admin1_name := some "California", admin1_code := some "CA",
  admin2_name := some "Los Angeles", admin2_code := some "037",
  admin3_name := none, admin3_code := none,
  latitude := some (PyFloat.finite 340901 (-4)),
  longitude := some (PyFloat.finite (-1184065) (-4)),
  accuracy := some 4 }

/-- A 10-cell Canada row whose latitude cell 7 parses ("1.5") but whose
longitude cell 8 is the unparsable "abc". -/
def caPartialRow : List String :=
  ["CA", "A1B", "StJohns", "NL", "05", "Div", "01", "1.5", "abc", "4"]

/-- The record the Canada mapper produces for `caPartialRow`: latitude was
assigned before the longitude conversion raised, so it survives. -/
def caPartialRec : Record := {
  country_code := "CA", postal_code := "A1B", place_name := "StJohns",
  admin1_name := some "NL", admin1_code := some "05",
  admin2_name := some "Div", admin2_code := some "01",
  admin3_name := none, admin3_code := none,
  latitude := some (PyFloat.finite 15 (-1)), longitude := none, accuracy := none }

/-- The spec example: a 10-cell Canada row whose latitude cell 7 is the
unparsable "abc". -/
def caAbcRow : List String :=
  ["CA", "A1B", "StJohns", "NL", "05", "Div", "01", "abc", "2.0", "4"]

/-- The record the Canada mapper produces for `caAbcRow`: all three numeric
fields absent, the admin fields still populated. -/
def caAbcRec : Record := {
  country_code := "CA", postal_code := "A1B", place_name := "StJohns",
  admin1_name := some "NL", admin1_code := some "05",
  admin2_name := some "Div", admin2_code := some "01",
  admin3_name := none, admin3_code := none,
  latitude := none, longitude := none, accuracy := none }

/-- An 11-cell Canada row (neither 10 nor 12 columns). -/
def caElevenRow : List String :=
  ["CA", "A1B", "StJohns", "NL", "05", "Div", "01", "X", "1.0", "2.0", "3"]


/-- On an explicit 12-cell row the Spain mapper reduces to the three numeric
conversions followed by the record construction. -/
theorem map_es_explicit (c0 c1 c2 c3 c4 c5 c6 c7 c8 c9 c10 c11 : String) :
    map_es_fields [c0, c1, c2, c3, c4, c5, c6, c7, c8, c9, c10, c11] =
      (optFloatCell c9 >>= fun lat =>
        optFloatCell c10 >>= fun lon =>
          optIntCell c11 >>= fun acc =>
            pure {
              country_code := c0, postal_code := c1, place_name := c2,
              admin1_name := some c3, admin1_code := some c4,
              admin2_name := some c5, admin2_code := some c6,
              admin3_name := optStrCell c7, admin3_code := optStrCell c8,
              latitude := lat, longitude := lon, accuracy := acc }) := rfl

/-- On an explicit 12-cell row the US mapper reduces to the three numeric
conversions followed by the record construction; no admin3 data appears. -/
theorem map_us_explicit (c0 c1 c2 c3 c4 c5 c6 c7 c8 c9 c10 c11 : String) :
    map_us_fields [c0, c1, c2, c3, c4, c5, c6, c7, c8, c9, c10, c11] =
      (optFloatCell c9 >>= fun lat =>
        optFloatCell c10 >>= fun lon =>
          optIntCell c11 >>= fun acc =>
            pure {
              country_code := c0, postal_code := c1, place_name := c2,
              admin1_name := some c3, admin1_code := some c4,
              admin2_name := some c5, admin2_code := some c6,
              admin3_name := none, admin3_code := none,
              latitude := lat, longitude := lon, accuracy := acc }) := rfl

/-- On an explicit 10-cell row the Canada mapper returns normally, with the
three trailing numeric cells handled by the guarded `caTryNums` block. -/
theorem map_ca_ten (c0 c1 c2 c3 c4 c5 c6 c7 c8 c9 : String) :
    map_ca_fields_flexible [c0, c1, c2, c3, c4, c5, c6, c7, c8, c9] =
      .ok (caTryNums {
        country_code := c0, postal_code := c1, place_name := c2,
        admin1_name := optStrCell c3, admin1_code := optStrCell c4,
        admin2_name := optStrCell c5, admin2_code := optStrCell c6,
        admin3_name := none, admin3_code := none,
        latitude := none, longitude := none, accuracy := none } c7 c8 c9) := rfl

/-- On an explicit 12-cell row the Canada mapper returns normally, mapping
cells 7 and 8 to admin3 and handling cells 9-11 with `caTryNums`. -/
theorem map_ca_twelve (c0 c1 c2 c3 c4 c5 c6 c7 c8 c9 c10 c11 : String) :
    map_ca_fields_flexible [c0, c1, c2, c3, c4, c5, c6, c7, c8, c9, c10, c11] =
      .ok (caTryNums {
        country_code := c0, postal_code := c1, place_name := c2,
        admin1_name := optStrCell c3, admin1_code := optStrCell c4,
        admin2_name := optStrCell c5, admin2_code := optStrCell c6,
        admin3_name := optStrCell c7, admin3_code := optStrCell c8,
        latitude := none, longitude := none, accuracy := none } c9 c10 c11) := rfl

/-- Binding a successful `Except` step. -/
theorem exc_ok_bind {α β : Type} (a : α) (f : α → Except MapErr β) :
    (Except.ok a >>= f : Except MapErr β) = f a := rfl

/-- Binding a raised `Except` step propagates the exception. -/
theorem exc_error_bind {α β : Type} (e : MapErr) (f : α → Except MapErr β) :
    (Except.error e >>= f : Except MapErr β) = Except.error e := rfl

/-- `pure` of the `Except` monad is `Except.ok`. -/
theorem exc_pure {β : Type} (b : β) : (pure b : Except MapErr β) = Except.ok b := rfl

/-- The guarded float conversion fails exactly on a non-empty unparsable
cell. -/
theorem optFloatCell_fails_iff (s : String) :
    isOkE (optFloatCell s) = false ↔ (s ≠ "" ∧ pyFloat s = none) := by
  unfold optFloatCell
  by_cases h : s = "" <;> simp [h, isOkE]
  cases hp : pyFloat s <;> simp [isOkE]

/-- The guarded int conversion fails exactly on a non-empty unparsable
cell. -/
theorem optIntCell_fails_iff (s : String) :
    isOkE (optIntCell s) = false ↔ (s ≠ "" ∧ pyInt s = none) := by
  unfold optIntCell
  by_cases h : s = "" <;> simp [h, isOkE]
  cases hp : pyInt s <;> simp [isOkE]

/-- When the guarded float conversion raises, the exception is a
`ValueError`. -/
theorem optFloatCell_error_isValueError (s : String) (e : MapErr)
    (h : optFloatCell s = .error e) : e.isValueError = true := by
  unfold optFloatCell at h
  by_cases hs : s = "" <;> simp [hs] at h
  cases hp : pyFloat s <;> simp [hp] at h
  simp [← h, MapErr.isValueError]

/-- When the guarded int conversion raises, the exception is a
`ValueError`. -/
theorem optIntCell_error_isValueError (s : String) (e : MapErr)
    (h : optIntCell s = .error e) : e.isValueError = true := by
  unfold optIntCell at h
  by_cases hs : s = "" <;> simp [hs] at h
  cases hp : pyInt s <;> simp [hp] at h
  simp [← h, MapErr.isValueError]

/-- An empty cell converts to an absent float. -/
theorem optFloatCell_empty : optFloatCell "" = .ok none := rfl

/-- An empty cell converts to an absent int. -/
theorem optIntCell_empty : optIntCell "" = .ok none := rfl

/-- A non-empty parsable cell converts to its parsed float. -/
theorem optFloatCell_parses (s : String) (v : PyFloat) (hs : s ≠ "")
    (hp : pyFloat s = some v) : optFloatCell s = .ok (some v) := by
  unfold optFloatCell
  simp [hs, hp]

/-- A non-empty parsable cell converts to its parsed int. -/
theorem optIntCell_parses (s : String) (v : Int) (hs : s ≠ "")
    (hp : pyInt s = some v) : optIntCell s = .ok (some v) := by
  unfold optIntCell
  simp [hs, hp]

/-- Inversion of a successful Spain mapping on an explicit 12-cell row:
the three numeric conversions succeeded and the record is the dict literal. -/
theorem map_es_ok_inv (c0 c1 c2 c3 c4 c5 c6 c7 c8 c9 c10 c11 : String) (rec : Record)
    (h : map_es_fields [c0, c1, c2, c3, c4, c5, c6, c7, c8, c9, c10, c11] = .ok rec) :
    ∃ lat lon acc, optFloatCell c9 = .ok lat ∧ optFloatCell c10 = .ok lon ∧
      optIntCell c11 = .ok acc ∧
      rec = {
        country_code := c0, postal_code := c1, place_name := c2,
        admin1_name := some c3, admin1_code := some c4,
        admin2_name := some c5, admin2_code := some c6,
        admin3_name := optStrCell c7, admin3_code := optStrCell c8,
        latitude := lat, longitude := lon, accuracy := acc } := by
  rw [map_es_explicit] at h
  cases h9 : optFloatCell c9 with
  | error e => rw [h9, exc_error_bind] at h; exact Except.noConfusion h
  | ok lat =>
    rw [h9, exc_ok_bind] at h
    cases h10 : optFloatCell c10 with
    | error e => rw [h10, exc_error_bind] at h; exact Except.noConfusion h
    | ok lon =>
      rw [h10, exc_ok_bind] at h
      cases h11 : optIntCell c11 with
      | error e => rw [h11, exc_error_bind] at h; exact Except.noConfusion h
      | ok acc =>
        rw [h11, exc_ok_bind, exc_pure] at h
        injection h with h
        exact ⟨lat, lon, acc, rfl, rfl, rfl, h.symm⟩

/-- Inversion of a successful US mapping on an explicit 12-cell row. -/
theorem map_us_ok_inv (c0 c1 c2 c3 c4 c5 c6 c7 c8 c9 c10 c11 : String) (rec : Record)
    (h : map_us_fields [c0, c1, c2, c3, c4, c5, c6, c7, c8, c9, c10, c11] = .ok rec) :
    ∃ lat lon acc, optFloatCell c9 = .ok lat ∧ optFloatCell c10 = .ok lon ∧
      optIntCell c11 = .ok acc ∧
      rec = {
        country_code := c0, postal_code := c1, place_name := c2,
        admin1_name := some c3, admin1_code := some c4,
        admin2_name := some c5, admin2_code := some c6,
        admin3_name := none, admin3_code := none,
        latitude := lat, longitude := lon, accuracy := acc } := by
  rw [map_us_explicit] at h
  cases h9 : optFloatCell c9 with
  | error e => rw [h9, exc_error_bind] at h; exact Except.noConfusion h
  | ok lat =>
    rw [h9, exc_ok_bind] at h
    cases h10 : optFloatCell c10 with
    | error e => rw [h10, exc_error_bind] at h; exact Except.noConfusion h
    | ok lon =>
      rw [h10, exc_ok_bind] at h
      cases h11 : optIntCell c11 with
      | error e => rw [h11, exc_error_bind] at h; exact Except.noConfusion h
      | ok acc =>
        rw [h11, exc_ok_bind, exc_pure] at h
        injection h with h
        exact ⟨lat, lon, acc, rfl, rfl, rfl, h.symm⟩

/-- The guarded numeric block never touches the non-numeric fields. -/
theorem caTryNums_fixed (doc : Record) (a b c : String) :
    (caTryNums doc a b c).country_code = doc.country_code ∧
    (caTryNums doc a b c).postal_code = doc.postal_code ∧
    (caTryNums doc a b c).place_name = doc.place_name ∧
    (caTryNums doc a b c).admin1_name = doc.admin1_name ∧
    (caTryNums doc a b c).admin1_code = doc.admin1_code ∧
    (caTryNums doc a b c).admin2_name = doc.admin2_name ∧
    (caTryNums doc a b c).admin2_code = doc.admin2_code ∧
    (caTryNums doc a b c).admin3_name = doc.admin3_name ∧
    (caTryNums doc a b c).admin3_code = doc.admin3_code := by
  unfold caTryNums
  cases h1 : optFloatCell a with
  | error e => simp
  | ok lat =>
    cases h2 : optFloatCell b with
    | error e => simp
    | ok lon =>
      cases h3 : optIntCell c with
      | error e => simp
      | ok acc => simp

/-- When the latitude conversion raises, no numeric assignment happens. -/
theorem caTryNums_latFail (doc : Record) (a b c : String)
    (h : isOkE (optFloatCell a) = false) : caTryNums doc a b c = doc := by
  unfold caTryNums
  cases h1 : optFloatCell a with
  | error e => rfl
  | ok lat => rw [h1] at h; exact absurd h (by simp [isOkE])

/-- When the longitude conversion raises, neither longitude nor accuracy is
assigned. -/
theorem caTryNums_lonFail (doc : Record) (a b c : String)
    (h : isOkE (optFloatCell b) = false) :
    (caTryNums doc a b c).longitude = doc.longitude ∧
    (caTryNums doc a b c).accuracy = doc.accuracy := by
  unfold caTryNums
  cases h1 : optFloatCell a with
  | error e => exact ⟨rfl, rfl⟩
  | ok lat =>
    cases h2 : optFloatCell b with
    | error e => exact ⟨rfl, rfl⟩
    | ok lon => rw [h2] at h; exact absurd h (by simp [isOkE])

/-- When the accuracy conversion raises, accuracy is not assigned. -/
theorem caTryNums_accFail (doc : Record) (a b c : String)
    (h : isOkE (optIntCell c) = false) :
    (caTryNums doc a b c).accuracy = doc.accuracy := by
  unfold caTryNums
  cases h1 : optFloatCell a with
  | error e => rfl
  | ok lat =>
    cases h2 : optFloatCell b with
    | error e => rfl
    | ok lon =>
      cases h3 : optIntCell c with
      | error e => rfl
      | ok acc => rw [h3] at h; exact absurd h (by simp [isOkE])

/-- C5: for every 12-cell row the Spain mapper maps cells 0-6 verbatim to
country_code..admin2_code, maps cells 7 and 8 to admin3_name/admin3_code
with an empty cell becoming absent, parses cells 9 and 10 as floats and
cell 11 as an integer, each becoming absent when the cell is empty. -/
theorem claim_C5_es_mapper_fields :
    ∀ c0 c1 c2 c3 c4 c5 c6 c7 c8 c9 c10 c11 : String, ∀ rec : Record,
      map_es_fields [c0, c1, c2, c3, c4, c5, c6, c7, c8, c9, c10, c11] = .ok rec →
      rec.country_code = c0 ∧ rec.postal_code = c1 ∧ rec.place_name = c2 ∧
      rec.admin1_name = some c3 ∧ rec.admin1_code = some c4 ∧
      rec.admin2_name = some c5 ∧ rec.admin2_code = some c6 ∧
      rec.admin3_name = (if c7 = "" then none else some c7) ∧
      rec.admin3_code = (if c8 = "" then none else some c8) ∧
      (c9 = "" → rec.latitude = none) ∧
      (∀ v, c9 ≠ "" → pyFloat c9 = some v → rec.latitude = some v) ∧
      (c10 = "" → rec.longitude = none) ∧
      (∀ v, c10 ≠ "" → pyFloat c10 = some v → rec.longitude = some v) ∧
      (c11 = "" → rec.accuracy = none) ∧
      (∀ v, c11 ≠ "" → pyInt c11 = some v → rec.accuracy = some v) := by
  intro c0 c1 c2 c3 c4 c5 c6 c7 c8 c9 c10 c11 rec h
  obtain ⟨lat, lon, acc, h9, h10, h11, rfl⟩ :=
    map_es_ok_inv c0 c1 c2 c3 c4 c5 c6 c7 c8 c9 c10 c11 rec h
  refine ⟨rfl, rfl, rfl, rfl, rfl, rfl, rfl, rfl, rfl, ?_, ?_, ?_, ?_, ?_, ?_⟩
  · intro he; subst he; rw [optFloatCell_empty] at h9; injection h9 with h9; exact h9.symm
  · intro v hne hv; rw [optFloatCell_parses c9 v hne hv] at h9
    injection h9 with h9; exact h9.symm
  · intro he; subst he; rw [optFloatCell_empty] at h10; injection h10 with h10; exact h10.symm
  · intro v hne hv; rw [optFloatCell_parses c10 v hne hv] at h10
    injection h10 with h10; exact h10.symm
  · intro he; subst he; rw [optIntCell_empty] at h11; injection h11 with h11; exact h11.symm
  · intro v hne hv; rw [optIntCell_parses c11 v hne hv] at h11
    injection h11 with h11; exact h11.symm

/-- C5 witness: the Spain row with cell 7 empty and cell 8 "CommunityX"
yields admin3_name absent and admin3_code "CommunityX". -/
theorem claim_C5_es_mapper_fields_witness :
    map_es_fields esCommunityRow = .ok esCommunityRec ∧
    esCommunityRec.admin3_name = none ∧
    esCommunityRec.admin3_code = some "CommunityX" := by
  have h := claim_C5_es_mapper_fields "ES" "28013" "Madrid" "Madrid" "MD" "Madrid" "M"
    "" "CommunityX" "40.4168" "-3.7038" "6" esCommunityRec (by decide)
  refine ⟨by decide, ?_, ?_⟩
  · have := h.2.2.2.2.2.2.2.1
    simpa using this
  · have := h.2.2.2.2.2.2.2.2.1
    simpa using this

/-- C6: for every 12-cell row the US mapper emits no admin3 data; the
Beverly Hills example row yields postal_code "90210", latitude 34.0901,
longitude -118.4065, accuracy 4 and no admin3 fields. -/
theorem claim_C6_us_no_admin3 :
    (∀ c0 c1 c2 c3 c4 c5 c6 c7 c8 c9 c10 c11 : String, ∀ rec : Record,
      map_us_fields [c0, c1, c2, c3, c4, c5, c6, c7, c8, c9, c10, c11] = .ok rec →
      rec.admin3_name = none ∧ rec.admin3_code = none) ∧
    map_us_fields usBeverlyRow = .ok usBeverlyRec ∧
    usBeverlyRec.postal_code = "90210" ∧
    usBeverlyRec.latitude = some (PyFloat.finite 340901 (-4)) ∧
    usBeverlyRec.longitude = some (PyFloat.finite (-1184065) (-4)) ∧
    usBeverlyRec.accuracy = some 4 ∧
    usBeverlyRec.admin3_name = none ∧
    usBeverlyRec.admin3_code = none := by
  refine ⟨?_, by decide, rfl, rfl, rfl, rfl, rfl, rfl⟩
  intro c0 c1 c2 c3 c4 c5 c6 c7 c8 c9 c10 c11 rec h
  obtain ⟨lat, lon, acc, _, _, _, rfl⟩ :=
    map_us_ok_inv c0 c1 c2 c3 c4 c5 c6 c7 c8 c9 c10 c11 rec h
  exact ⟨rfl, rfl⟩

/-- C6 witness: the general part of C6 applied to the Beverly Hills row. -/
theorem claim_C6_us_no_admin3_witness :
    usBeverlyRec.admin3_name = none ∧ usBeverlyRec.admin3_code = none :=
  claim_C6_us_no_admin3.1 "US" "90210" "Beverly Hills" "California" "CA" "Los Angeles"
    "037" "" "" "34.0901" "-118.4065" "4" usBeverlyRec (by decide)

/-- C7: for every 12-cell row both the Spain and the US mapper copy cells
0, 1, 2 verbatim into country_code, postal_code, place_name. -/
theorem claim_C7_core_fields_verbatim :
    ∀ c0 c1 c2 c3 c4 c5 c6 c7 c8 c9 c10 c11 : String,
      (∀ rec : Record,
        map_es_fields [c0, c1, c2, c3, c4, c5, c6, c7, c8, c9, c10, c11] = .ok rec →
        rec.country_code = c0 ∧ rec.postal_code = c1 ∧ rec.place_name = c2) ∧
      (∀ rec : Record,
        map_us_fields [c0, c1, c2, c3, c4, c5, c6, c7, c8, c9, c10, c11] = .ok rec →
        rec.country_code = c0 ∧ rec.postal_code = c1 ∧ rec.place_name = c2) := by
  intro c0 c1 c2 c3 c4 c5 c6 c7 c8 c9 c10 c11
  constructor
  · intro rec h
    obtain ⟨lat, lon, acc, _, _, _, rfl⟩ :=
      map_es_ok_inv c0 c1 c2 c3 c4 c5 c6 c7 c8 c9 c10 c11 rec h
    exact ⟨rfl, rfl, rfl⟩
  · intro rec h
    obtain ⟨lat, lon, acc, _, _, _, rfl⟩ :=
      map_us_ok_inv c0 c1 c2 c3 c4 c5 c6 c7 c8 c9 c10 c11 rec h
    exact ⟨rfl, rfl, rfl⟩

/-- C7 witness: verbatim copy of cells 0-2 on the sample Spain row, with an
empty place-name cell staying a present empty string. -/
theorem claim_C7_core_fields_verbatim_witness :
    esSampleRec.country_code = "ES" ∧ esSampleRec.postal_code = "28013" ∧
    esSampleRec.place_name = "Madrid" :=
  (claim_C7_core_fields_verbatim "ES" "28013" "Madrid" "Madrid" "MD" "Madrid" "M"
    "Centro" "28079" "40.4168" "-3.7038" "6").1 esSampleRec (by decide)

/-- C10: for every 12-cell row the Spain and US mappers emit admin1_name,
admin1_code, admin2_name, admin2_code as the present verbatim strings of
cells 3-6, never absent, even when a cell is empty. -/
theorem claim_C10_admin12_always_present :
    ∀ c0 c1 c2 c3 c4 c5 c6 c7 c8 c9 c10 c11 : String,
      (∀ rec : Record,
        map_es_fields [c0, c1, c2, c3, c4, c5, c6, c7, c8, c9, c10, c11] = .ok rec →
        rec.admin1_name = some c3 ∧ rec.admin1_code = some c4 ∧
        rec.admin2_name = some c5 ∧ rec.admin2_code = some c6 ∧
        rec.admin1_name.isSome = true ∧ rec.admin1_code.isSome = true ∧
        rec.admin2_name.isSome = true ∧ rec.admin2_code.isSome = true) ∧
      (∀ rec : Record,
        map_us_fields [c0, c1, c2, c3, c4, c5, c6, c7, c8, c9, c10, c11] = .ok rec →
        rec.admin1_name = some c3 ∧ rec.admin1_code = some c4 ∧
        rec.admin2_name = some c5 ∧ rec.admin2_code = some c6 ∧
        rec.admin1_name.isSome = true ∧ rec.admin1_code.isSome = true ∧
        rec.admin2_name.isSome = true ∧ rec.admin2_code.isSome = true) := by
  intro c0 c1 c2 c3 c4 c5 c6 c7 c8 c9 c10 c11
  constructor
  · intro rec h
    obtain ⟨lat, lon, acc, _, _, _, rfl⟩ :=
      map_es_ok_inv c0 c1 c2 c3 c4 c5 c6 c7 c8 c9 c10 c11 rec h
    exact ⟨rfl, rfl, rfl, rfl, rfl, rfl, rfl, rfl⟩
  · intro rec h
    obtain ⟨lat, lon, acc, _, _, _, rfl⟩ :=
      map_us_ok_inv c0 c1 c2 c3 c4 c5 c6 c7 c8 c9 c10 c11 rec h
    exact ⟨rfl, rfl, rfl, rfl, rfl, rfl, rfl, rfl⟩

/-- C10 witness: a Spain row whose admin2_code cell is the empty string
still carries a present (empty-string) admin2_code. -/
theorem claim_C10_admin12_always_present_witness :
    map_es_fields ["ES", "28013", "Madrid", "Madrid", "MD", "Madrid", "", "", "",
      "", "", ""] = .ok {
        country_code := "ES", postal_code := "28013", place_name := "Madrid",
        admin1_name := some "Madrid", admin1_code := some "MD",
        admin2_name := some "Madrid", admin2_code := some "",
        admin3_name := none, admin3_code := none,
        latitude := none, longitude := none, accuracy := none } ∧
    (Option.some "").isSome = true := by
  refine ⟨by decide, ?_⟩
  have h := (claim_C10_admin12_always_present "ES" "28013" "Madrid" "Madrid" "MD"
    "Madrid" "" "" "" "" "" "").1 {
      country_code := "ES", postal_code := "28013", place_name := "Madrid",
      admin1_name := some "Madrid", admin1_code := some "MD",
      admin2_name := some "Madrid", admin2_code := some "",
      admin3_name := none, admin3_code := none,
      latitude := none, longitude := none, accuracy := none } (by decide)
  exact h.2.2.2.2.2.2.2

/-- The ES/US conversion chain fails exactly when one of the three numeric
cells is non-empty and unparsable (the record constructor `k` is irrelevant). -/
theorem bindChain_fails_iff (c9 c10 c11 : String)
    (k : Option PyFloat → Option PyFloat → Option Int → Record) :
    isOkE (optFloatCell c9 >>= fun lat =>
        optFloatCell c10 >>= fun lon =>
          optIntCell c11 >>= fun acc => pure (k lat lon acc)) = false ↔
      ((c9 ≠ "" ∧ pyFloat c9 = none) ∨ (c10 ≠ "" ∧ pyFloat c10 = none) ∨
        (c11 ≠ "" ∧ pyInt c11 = none)) := by
  cases h9 : optFloatCell c9 with
  | error e =>
    have h' : c9 ≠ "" ∧ pyFloat c9 = none :=
      (optFloatCell_fails_iff c9).mp (by rw [h9]; rfl)
    rw [exc_error_bind]
    exact ⟨fun _ => Or.inl h', fun _ => rfl⟩
  | ok lat =>
    have h9ok : ¬(c9 ≠ "" ∧ pyFloat c9 = none) := by
      rw [← optFloatCell_fails_iff, h9]; simp [isOkE]
    rw [exc_ok_bind]
    cases h10 : optFloatCell c10 with
    | error e =>
      have h' : c10 ≠ "" ∧ pyFloat c10 = none :=
        (optFloatCell_fails_iff c10).mp (by rw [h10]; rfl)
      rw [exc_error_bind]
      exact ⟨fun _ => Or.inr (Or.inl h'), fun _ => rfl⟩
    | ok lon =>
      have h10ok : ¬(c10 ≠ "" ∧ pyFloat c10 = none) := by
        rw [← optFloatCell_fails_iff, h10]; simp [isOkE]
      rw [exc_ok_bind]
      cases h11 : optIntCell c11 with
      | error e =>
        have h' : c11 ≠ "" ∧ pyInt c11 = none :=
          (optIntCell_fails_iff c11).mp (by rw [h11]; rfl)
        rw [exc_error_bind]
        exact ⟨fun _ => Or.inr (Or.inr h'), fun _ => rfl⟩
      | ok acc =>
        have h11ok : ¬(c11 ≠ "" ∧ pyInt c11 = none) := by
          rw [← optIntCell_fails_iff, h11]; simp [isOkE]
        rw [exc_ok_bind, exc_pure]
        constructor
        · intro hfalse; exact absurd hfalse (by simp [isOkE])
        · rintro (h | h | h)
          · exact absurd h h9ok
          · exact absurd h h10ok
          · exact absurd h h11ok

/-- When the ES/US conversion chain raises, the exception is a `ValueError`. -/
theorem bindChain_error_isValueError (c9 c10 c11 : String)
    (k : Option PyFloat → Option PyFloat → Option Int → Record) (e : MapErr)
    (h : (optFloatCell c9 >>= fun lat =>
        optFloatCell c10 >>= fun lon =>
          optIntCell c11 >>= fun acc => pure (k lat lon acc)) = .error e) :
    e.isValueError = true := by
  cases h9 : optFloatCell c9 with
  | error e9 =>
    rw [h9, exc_error_bind] at h
    injection h with h
    exact h ▸ optFloatCell_error_isValueError c9 e9 h9
  | ok lat =>
    rw [h9, exc_ok_bind] at h
    cases h10 : optFloatCell c10 with
    | error e10 =>
      rw [h10, exc_error_bind] at h
      injection h with h
      exact h ▸ optFloatCell_error_isValueError c10 e10 h10
    | ok lon =>
      rw [h10, exc_ok_bind] at h
      cases h11 : optIntCell c11 with
      | error e11 =>
        rw [h11, exc_error_bind] at h
        injection h with h
        exact h ▸ optIntCell_error_isValueError c11 e11 h11
      | ok acc =>
        rw [h11, exc_ok_bind, exc_pure] at h
        exact Except.noConfusion h

/-- C4: on a 12-cell row the Spain and US mappers raise exactly when some
numeric cell (9, 10 or 11) is non-empty and not parsable as float, float,
integer respectively; the raised exception is a ValueError; and when the
mapper raises, the row loop appends no record and counts the row skipped. -/
theorem claim_C4_raise_iff_and_skip :
    ∀ c0 c1 c2 c3 c4 c5 c6 c7 c8 c9 c10 c11 : String,
      (isOkE (map_es_fields [c0, c1, c2, c3, c4, c5, c6, c7, c8, c9, c10, c11]) = false ↔
        ((c9 ≠ "" ∧ pyFloat c9 = none) ∨ (c10 ≠ "" ∧ pyFloat c10 = none) ∨
          (c11 ≠ "" ∧ pyInt c11 = none))) ∧
      (isOkE (map_us_fields [c0, c1, c2, c3, c4, c5, c6, c7, c8, c9, c10, c11]) = false ↔
        ((c9 ≠ "" ∧ pyFloat c9 = none) ∨ (c10 ≠ "" ∧ pyFloat c10 = none) ∨
          (c11 ≠ "" ∧ pyInt c11 = none))) ∧
      (∀ e, map_es_fields [c0, c1, c2, c3, c4, c5, c6, c7, c8, c9, c10, c11] = .error e →
        e.isValueError = true) ∧
      (∀ e, map_us_fields [c0, c1, c2, c3, c4, c5, c6, c7, c8, c9, c10, c11] = .error e →
        e.isValueError = true) ∧
      (∀ (mapper : List String → Except MapErr Record) (st : PState) (i : Nat),
        st.documents.length < 10000 →
        isOkE (mapper [c0, c1, c2, c3, c4, c5, c6, c7, c8, c9, c10, c11]) = false →
        (processRow [12] mapper st i [c0, c1, c2, c3, c4, c5, c6, c7, c8, c9, c10, c11]).1
          = { st with skipped := st.skipped + 1 }) := by
  intro c0 c1 c2 c3 c4 c5 c6 c7 c8 c9 c10 c11
  refine ⟨?_, ?_, ?_, ?_, ?_⟩
  · rw [map_es_explicit]; exact bindChain_fails_iff c9 c10 c11 _
  · rw [map_us_explicit]; exact bindChain_fails_iff c9 c10 c11 _
  · intro e h; rw [map_es_explicit] at h; exact bindChain_error_isValueError c9 c10 c11 _ e h
  · intro e h; rw [map_us_explicit] at h; exact bindChain_error_isValueError c9 c10 c11 _ e h
  · intro mapper st i hlen hfail
    cases hm : mapper [c0, c1, c2, c3, c4, c5, c6, c7, c8, c9, c10, c11] with
    | ok doc => rw [hm] at hfail; exact absurd hfail (by simp [isOkE])
    | error e =>
      cases e with
      | valueError msg =>
        simp [processRow, hm, maybeFlush, show ¬(10000 ≤ st.documents.length) from by omega]
      | indexError =>
        simp [processRow, hm, maybeFlush, show ¬(10000 ≤ st.documents.length) from by omega]

/-- C4 witness: a Spain row with unparsable latitude cell "abc" raises, and
the row loop counts it skipped without appending a record. -/
theorem claim_C4_raise_iff_and_skip_witness :
    isOkE (map_es_fields esBadRow) = false ∧
    (processRow [12] map_es_fields initState 3 esBadRow).1
      = { documents := [], writes := [], processed := 0, skipped := 1 } := by
  have h := claim_C4_raise_iff_and_skip "ES" "28013" "Madrid" "Madrid" "MD" "Madrid" "M"
    "" "" "abc" "-3.7" "6"
  have hfail : isOkE (map_es_fields esBadRow) = false :=
    h.1.mpr (Or.inl ⟨by decide, by decide⟩)
  exact ⟨hfail, h.2.2.2.2 map_es_fields initState 3 (by decide) hfail⟩

/-- C1 counterexample: in the 10-cell Canada row `caPartialRow` the
longitude cell 8 is the non-empty unparsable "abc", so lat/long/accuracy
parsing fails, yet the returned record still carries the latitude parsed
from cell 7 ("1.5") — latitude is not absent, refuting "leaves all three
fields (latitude, longitude, accuracy) absent". -/
theorem claim_C1_counterexample :
    caPartialRow.length = 10 ∧
    caPartialRow.getD 8 "" = "abc" ∧
    pyFloat "abc" = none ∧
    map_ca_fields_flexible caPartialRow = .ok caPartialRec ∧
    caPartialRec.latitude = some (PyFloat.finite 15 (-1)) ∧
    caPartialRec.latitude.isSome = true ∧
    caPartialRec.longitude = none ∧
    caPartialRec.accuracy = none := by decide

/-- C1 amended: for Canada rows of exactly 10 or exactly 12 cells the mapper
catches lat/long/accuracy parse errors locally and never discards the row;
the failing field and the fields after it (in the order latitude, longitude,
accuracy) are left absent — fields of the three parsed before the failure
keep their values — and the rest of the record (country_code, postal_code,
place_name and all admin fields from their cells) is still emitted; in
particular, when the latitude cell itself fails, all three are absent. -/
theorem claim_C1_amended :
    (∀ c0 c1 c2 c3 c4 c5 c6 c7 c8 c9 : String,
      isOkE (map_ca_fields_flexible [c0, c1, c2, c3, c4, c5, c6, c7, c8, c9]) = true ∧
      (∀ rec : Record,
        map_ca_fields_flexible [c0, c1, c2, c3, c4, c5, c6, c7, c8, c9] = .ok rec →
        rec.country_code = c0 ∧ rec.postal_code = c1 ∧ rec.place_name = c2 ∧
        rec.admin1_name = (if c3 = "" then none else some c3) ∧
        rec.admin1_code = (if c4 = "" then none else some c4) ∧
        rec.admin2_name = (if c5 = "" then none else some c5) ∧
        rec.admin2_code = (if c6 = "" then none else some c6) ∧
        rec.admin3_name = none ∧ rec.admin3_code = none ∧
        (c7 ≠ "" → pyFloat c7 = none →
          rec.latitude = none ∧ rec.longitude = none ∧ rec.accuracy = none) ∧
        (c8 ≠ "" → pyFloat c8 = none → rec.longitude = none ∧ rec.accuracy = none) ∧
        (c9 ≠ "" → pyInt c9 = none → rec.accuracy = none))) ∧
    (∀ c0 c1 c2 c3 c4 c5 c6 c7 c8 c9 c10 c11 : String,
      isOkE (map_ca_fields_flexible [c0, c1, c2, c3, c4, c5, c6, c7, c8, c9, c10, c11])
        = true ∧
      (∀ rec : Record,
        map_ca_fields_flexible [c0, c1, c2, c3, c4, c5, c6, c7, c8, c9, c10, c11]
          = .ok rec →
        rec.country_code = c0 ∧ rec.postal_code = c1 ∧ rec.place_name = c2 ∧
        rec.admin1_name = (if c3 = "" then none else some c3) ∧
        rec.admin1_code = (if c4 = "" then none else some c4) ∧
        rec.admin2_name = (if c5 = "" then none else some c5) ∧
        rec.admin2_code = (if c6 = "" then none else some c6) ∧
        rec.admin3_name = (if c7 = "" then none else some c7) ∧
        rec.admin3_code = (if c8 = "" then none else some c8) ∧
        (c9 ≠ "" → pyFloat c9 = none →
          rec.latitude = none ∧ rec.longitude = none ∧ rec.accuracy = none) ∧
        (c10 ≠ "" → pyFloat c10 = none → rec.longitude = none ∧ rec.accuracy = none) ∧
        (c11 ≠ "" → pyInt c11 = none → rec.accuracy = none))) := by
  constructor
  · intro c0 c1 c2 c3 c4 c5 c6 c7 c8 c9
    rw [map_ca_ten]
    refine ⟨rfl, ?_⟩
    intro rec h
    injection h with h
    subst h
    have hfix := caTryNums_fixed {
      country_code := c0, postal_code := c1, place_name := c2,
      admin1_name := optStrCell c3, admin1_code := optStrCell c4,
      admin2_name := optStrCell c5, admin2_code := optStrCell c6,
      admin3_name := none, admin3_code := none,
      latitude := none, longitude := none, accuracy := none } c7 c8 c9
    refine ⟨hfix.1, hfix.2.1, hfix.2.2.1, hfix.2.2.2.1, hfix.2.2.2.2.1,
      hfix.2.2.2.2.2.1, hfix.2.2.2.2.2.2.1, hfix.2.2.2.2.2.2.2.1,
      hfix.2.2.2.2.2.2.2.2, ?_, ?_, ?_⟩
    · intro hne hp
      have hfail : isOkE (optFloatCell c7) = false := (optFloatCell_fails_iff c7).mpr ⟨hne, hp⟩
      rw [caTryNums_latFail _ c7 c8 c9 hfail]
      exact ⟨rfl, rfl, rfl⟩
    · intro hne hp
      have hfail : isOkE (optFloatCell c8) = false := (optFloatCell_fails_iff c8).mpr ⟨hne, hp⟩
      exact caTryNums_lonFail _ c7 c8 c9 hfail
    · intro hne hp
      have hfail : isOkE (optIntCell c9) = false := (optIntCell_fails_iff c9).mpr ⟨hne, hp⟩
      exact caTryNums_accFail _ c7 c8 c9 hfail
  · intro c0 c1 c2 c3 c4 c5 c6 c7 c8 c9 c10 c11
    rw [map_ca_twelve]
    refine ⟨rfl, ?_⟩
    intro rec h
    injection h with h
    subst h
    have hfix := caTryNums_fixed {
      country_code := c0, postal_code := c1, place_name := c2,
      admin1_name := optStrCell c3, admin1_code := optStrCell c4,
      admin2_name := optStrCell c5, admin2_code := optStrCell c6,
      admin3_name := optStrCell c7, admin3_code := optStrCell c8,
      latitude := none, longitude := none, accuracy := none } c9 c10 c11
    refine ⟨hfix.1, hfix.2.1, hfix.2.2.1, hfix.2.2.2.1, hfix.2.2.2.2.1,
      hfix.2.2.2.2.2.1, hfix.2.2.2.2.2.2.1, hfix.2.2.2.2.2.2.2.1,
      hfix.2.2.2.2.2.2.2.2, ?_, ?_, ?_⟩
    · intro hne hp
      have hfail : isOkE (optFloatCell c9) = false := (optFloatCell_fails_iff c9).mpr ⟨hne, hp⟩
      rw [caTryNums_latFail _ c9 c10 c11 hfail]
      exact ⟨rfl, rfl, rfl⟩
    · intro hne hp
      have hfail : isOkE (optFloatCell c10) = false := (optFloatCell_fails_iff c10).mpr ⟨hne, hp⟩
      exact caTryNums_lonFail _ c9 c10 c11 hfail
    · intro hne hp
      have hfail : isOkE (optIntCell c11) = false := (optIntCell_fails_iff c11).mpr ⟨hne, hp⟩
      exact caTryNums_accFail _ c9 c10 c11 hfail

/-- C1 amended witness: the spec's example row with unparsable latitude
cell "abc" keeps the whole record with all three numeric fields absent and
the admin fields populated from cells 3-6. -/
theorem claim_C1_amended_witness :
    map_ca_fields_flexible caAbcRow = .ok caAbcRec ∧
    caAbcRec.latitude = none ∧ caAbcRec.longitude = none ∧ caAbcRec.accuracy = none ∧
    caAbcRec.admin1_name = some "NL" ∧ caAbcRec.admin1_code = some "05" ∧
    caAbcRec.admin2_name = some "Div" ∧ caAbcRec.admin2_code = some "01" := by
  have h := (claim_C1_amended.1 "CA" "A1B" "StJohns" "NL" "05" "Div" "01"
    "abc" "2.0" "4").2 caAbcRec (by decide)
  have habs := h.2.2.2.2.2.2.2.2.2.1 (by decide) (by decide)
  exact ⟨by decide, habs.1, habs.2.1, habs.2.2, by decide, by decide, by decide, by decide⟩

/-- C2 counterexample: the empty row has a cell count (0) that is neither 10
nor 12, yet the Canada mapper raises an IndexError from the unconditional
access to cell 0 — not a value-conversion error naming the column count. -/
theorem claim_C2_counterexample :
    ([] : List String).length = 0 ∧
    map_ca_fields_flexible [] = .error MapErr.indexError ∧
    MapErr.indexError.isValueError = false := by decide

/-- C2 amended: for rows with at least 3 cells whose count is neither 10 nor
12 the Canada mapper raises a ValueError whose message names the unexpected
column count; rows with fewer than 3 cells instead raise an IndexError from
the unconditional accesses to cells 0-2, before the count is examined. -/
theorem claim_C2_amended :
    (∀ row : List String, 3 ≤ row.length → row.length ≠ 10 → row.length ≠ 12 →
      map_ca_fields_flexible row = .error (.valueError
        ("Unexpected number of columns (" ++ toString row.length ++
          ") for CA data mapper."))) ∧
    (∀ row : List String, row.length < 3 →
      map_ca_fields_flexible row = .error MapErr.indexError) := by
  constructor
  · intro row h3 h10 h12
    cases row with
    | nil => simp at h3
    | cons a t =>
      cases t with
      | nil => simp at h3
      | cons b t2 =>
        cases t2 with
        | nil => simp at h3
        | cons c rest =>
          unfold map_ca_fields_flexible
          simp only [show getCell (a :: b :: c :: rest) 0 = Except.ok a from rfl,
            show getCell (a :: b :: c :: rest) 1 = Except.ok b from rfl,
            show getCell (a :: b :: c :: rest) 2 = Except.ok c from rfl,
            exc_ok_bind]
          rw [dif_neg h10, dif_neg h12]
          rfl
  · intro row h
    cases row with
    | nil => rfl
    | cons a t =>
      cases t with
      | nil => rfl
      | cons b t2 =>
        cases t2 with
        | nil => rfl
        | cons c rest => exact absurd h (by simp only [List.length_cons]; omega)

/-- C2 amended witness: a 4-cell row raises the ValueError naming the count
4, and a 2-cell row raises an IndexError. -/
theorem claim_C2_amended_witness :
    map_ca_fields_flexible ["CA", "A1B", "StJohns", "NL"] =
      .error (.valueError "Unexpected number of columns (4) for CA data mapper.") ∧
    map_ca_fields_flexible ["CA", "A1B"] = .error MapErr.indexError := by
  constructor
  · exact claim_C2_amended.1 ["CA", "A1B", "StJohns", "NL"] (by decide) (by decide) (by decide)
  · exact claim_C2_amended.2 ["CA", "A1B"] (by decide)

/-- C8: a row whose cell count is not in the country's acceptable set
produces no record, bumps the skipped count by exactly one, and processing
continues with the next row; the outcome state is the same at every row
index, so the first-row header heuristic changes only the log wording. -/
theorem claim_C8_wrong_count_skipped :
    ∀ (expected : List Nat) (mapper : List String → Except MapErr Record)
      (st : PState) (i : Nat) (row : List String),
      row.length ∉ expected → st.documents.length < 10000 →
      (processRow expected mapper st i row).1 = { st with skipped := st.skipped + 1 } ∧
      (∀ j : Nat, (processRow expected mapper st i row).1
        = (processRow expected mapper st j row).1) ∧
      (∀ rest, processRowsAux expected mapper st i (row :: rest)
        = processRowsAux expected mapper { st with skipped := st.skipped + 1 } (i + 1) rest) := by
  intro expected mapper st i row hmem hlen
  have key : ∀ k : Nat,
      (processRow expected mapper st k row).1 = { st with skipped := st.skipped + 1 } := by
    intro k
    simp [processRow, hmem, maybeFlush, show ¬(10000 ≤ st.documents.length) from by omega]
  exact ⟨key i, fun j => (key i).trans (key j).symm,
    fun rest => by simp only [processRowsAux, key i]⟩

/-- C8 witness: an 11-cell Canada row at row index 7 is skipped with skip
count going from 0 to 1 and no record produced. -/
theorem claim_C8_wrong_count_skipped_witness :
    (processRow ca_expected_columns map_ca_fields_flexible initState 7 caElevenRow).1
      = { documents := [], writes := [], processed := 0, skipped := 1 } :=
  (claim_C8_wrong_count_skipped ca_expected_columns map_ca_fields_flexible initState 7
    caElevenRow (by decide) (by decide)).1

/-- C9: when the input file does not exist, `process_file` returns before
touching the database: no operation (in particular no drop) is issued and
the destination collection keeps its previous contents unchanged. -/
theorem claim_C9_missing_file_frame :
    ∀ (prior : List Record) (expected : List Nat)
      (mapper : List String → Except MapErr Record) (rows : List (List String)),
      (process_file_run false expected mapper rows).ops = [] ∧
      applyOps prior (process_file_run false expected mapper rows).ops = prior := by
  intro prior expected mapper rows
  exact ⟨rfl, rfl⟩

/-- C9 witness: a concrete prior collection is untouched when the file is
missing. -/
theorem claim_C9_missing_file_frame_witness :
    (process_file_run false [12] map_es_fields [esSampleRow]).ops = [] ∧
    applyOps [esSampleRec] (process_file_run false [12] map_es_fields [esSampleRow]).ops
      = [esSampleRec] :=
  claim_C9_missing_file_frame [esSampleRec] [12] map_es_fields [esSampleRow]

/-- One-step unfolding of the row loop on a cons list. -/
theorem processRowsAux_cons (expected : List Nat)
    (mapper : List String → Except MapErr Record) (st : PState) (i : Nat)
    (row : List String) (rest : List (List String)) :
    processRowsAux expected mapper st i (row :: rest)
      = processRowsAux expected mapper (processRow expected mapper st i row).1 (i + 1) rest := rfl

/-- The batch-threshold check moves documents between buffer and writes but
never loses or duplicates one: the flattened writes followed by the buffer
are unchanged. -/
theorem maybeFlush_concat (st : PState) :
    (maybeFlush st).writes.join ++ (maybeFlush st).documents
      = st.writes.join ++ st.documents := by
  unfold maybeFlush
  split <;> simp

/-- Invariant of the row loop: flattened writes plus the pending buffer
equal the initial ones followed by every record successfully mapped so far,
in order. -/
theorem aux_join (expected : List Nat) (mapper : List String → Except MapErr Record) :
    ∀ (rows : List (List String)) (st : PState) (i : Nat),
      (processRowsAux expected mapper st i rows).writes.join
          ++ (processRowsAux expected mapper st i rows).documents
        = st.writes.join ++ st.documents ++ mappedDocs expected mapper rows := by
  intro rows
  induction rows with
  | nil => intro st i; simp [processRowsAux, mappedDocs]
  | cons r rest ih =>
    intro st i
    simp only [processRowsAux]
    rw [ih]
    rw [show (processRow expected mapper st i r).1
      = maybeFlush (if r.length ∈ expected then
          match mapper r with
          | .ok doc =>
            { st with documents := st.documents ++ [doc], processed := st.processed + 1 }
          | .error (.valueError _) => { st with skipped := st.skipped + 1 }
          | .error .indexError => { st with skipped := st.skipped + 1 }
        else { st with skipped := st.skipped + 1 }) from by
        by_cases hmem : r.length ∈ expected
        · cases hm : mapper r with
          | ok doc => simp [processRow, hmem, hm]
          | error e => cases e <;> simp [processRow, hmem, hm]
        · simp [processRow, hmem]]
    rw [maybeFlush_concat]
    by_cases hmem : r.length ∈ expected
    · cases hm : mapper r with
      | ok doc =>
        simp [hmem, hm, mappedDocs, Except.toOption, List.append_assoc]
      | error e =>
        cases e <;> simp [hmem, hm, mappedDocs, Except.toOption]
    · simp [hmem, mappedDocs]

/-- The final partial flush turns the remaining buffer into one last write:
the flattened writes afterwards are the earlier writes plus the buffer. -/
theorem finalize_join (st : PState) :
    (finalizeState st).writes.join = st.writes.join ++ st.documents := by
  unfold finalizeState
  split <;> simp_all

/-- Applying a sequence of `insert_many` operations appends their batches in
order. -/
theorem applyOps_insertMany :
    ∀ (ws : List (List Record)) (c : List Record),
      applyOps c (ws.map DbOp.insertMany) = c ++ ws.join := by
  intro ws
  induction ws with
  | nil => intro c; simp [applyOps]
  | cons w rest ih =>
    intro c
    simp only [List.map_cons, applyOps, List.foldl_cons] at ih ⊢
    rw [ih]
    simp [List.append_assoc]

/-- Processing `n + 1` copies of a successfully-mapped row when the buffer
needs exactly `n + 1` more records to reach 10000 performs exactly one bulk
write — of the full buffer — at the last of those rows, leaving the buffer
empty. -/
theorem aux_replicate_chunk (expected : List Nat)
    (mapper : List String → Except MapErr Record) (r : List String) (d : Record)
    (hmem : r.length ∈ expected) (hm : mapper r = .ok d) :
    ∀ (n : Nat) (b : List Record) (w : List (List Record)) (p s i : Nat)
      (rest : List (List String)),
      b.length + (n + 1) = 10000 →
      processRowsAux expected mapper ⟨b, w, p, s⟩ i (List.replicate (n + 1) r ++ rest)
        = processRowsAux expected mapper
            ⟨[], w ++ [b ++ List.replicate (n + 1) d], p + (n + 1), s⟩ (i + (n + 1)) rest := by
  intro n
  induction n with
  | zero =>
    intro b w p s i rest hb
    have hc : 9999 ≤ b.length := by omega
    rw [show List.replicate (0 + 1) r ++ rest = r :: rest from by simp, processRowsAux_cons]
    have hst : (processRow expected mapper ⟨b, w, p, s⟩ i r).1
        = ⟨[], w ++ [b ++ [d]], p + 1, s⟩ := by
      simp [processRow, hmem, hm, maybeFlush, hc]
    rw [hst]
    simp
  | succ m ih =>
    intro b w p s i rest hb
    rw [List.replicate_succ, List.cons_append, processRowsAux_cons]
    have hst : (processRow expected mapper ⟨b, w, p, s⟩ i r).1
        = ⟨b ++ [d], w, p + 1, s⟩ := by
      have hc : b.length < 9999 := by omega
      simp [processRow, hmem, hm, maybeFlush, hc]
    rw [hst, ih (b ++ [d]) w (p + 1) s (i + 1) rest (by simp; omega)]
    have e1 : (b ++ [d]) ++ List.replicate (m + 1) d = b ++ List.replicate (m + 1 + 1) d := by
      rw [List.append_assoc, List.singleton_append, ← List.replicate_succ]
    have e2 : p + 1 + (m + 1) = p + (m + 1 + 1) := by omega
    have e3 : i + 1 + (m + 1) = i + (m + 1 + 1) := by omega
    rw [e1, e2, e3]

/-- The row loop on an empty list returns the state unchanged. -/
theorem processRowsAux_nil (expected : List Nat)
    (mapper : List String → Except MapErr Record) (st : PState) (i : Nat) :
    processRowsAux expected mapper st i [] = st := rfl

/-- One accepted, successfully mapped row below the batch threshold just
appends its record and bumps the processed count. -/
theorem processRow_ok_noflush (expected : List Nat)
    (mapper : List String → Except MapErr Record) (docs : List Record)
    (w : List (List Record)) (p s i : Nat) (row : List String) (doc : Record)
    (hmem : row.length ∈ expected) (hm : mapper row = .ok doc)
    (hlen : docs.length < 9999) :
    (processRow expected mapper ⟨docs, w, p, s⟩ i row).1 = ⟨docs ++ [doc], w, p + 1, s⟩ := by
  simp [processRow, hmem, hm, maybeFlush, hlen]

/-- Finalizing a state with a non-empty buffer appends it as one last write. -/
theorem finalizeState_mk_cons (x : Record) (l : List Record)
    (w : List (List Record)) (p s : Nat) :
    finalizeState ⟨x :: l, w, p, s⟩ = ⟨[], w ++ [x :: l], p, s⟩ := by
  unfold finalizeState
  rw [if_neg (by simp)]

/-- C3: the batch writer loses and duplicates nothing — after the drop, the
concatenation of all bulk writes equals the successfully mapped records in
row order, for every input; and a file of 10001 successfully-mapped rows
issues exactly two bulk writes, of sizes 10000 and 1. -/
theorem claim_C3_batch_writer :
    (∀ (expected : List Nat) (mapper : List String → Except MapErr Record)
      (rows : List (List String)) (prior : List Record),
      applyOps prior (process_file_run true expected mapper rows).ops
        = mappedDocs expected mapper rows) ∧
    (∀ (mapper : List String → Except MapErr Record) (r : List String) (d : Record),
      r.length = 12 → mapper r = .ok d →
      (process_file_run true [12] mapper (List.replicate 10001 r)).ops
        = [DbOp.drop, DbOp.insertMany (List.replicate 10000 d), DbOp.insertMany [d]]) := by
  constructor
  · intro expected mapper rows prior
    simp only [process_file_run, if_true]
    rw [show applyOps prior
        (DbOp.drop ::
          (finalizeState (processRowsAux expected mapper initState 0 rows)).writes.map
            DbOp.insertMany)
      = applyOps []
          ((finalizeState (processRowsAux expected mapper initState 0 rows)).writes.map
            DbOp.insertMany) from rfl]
    rw [applyOps_insertMany, List.nil_append, finalize_join]
    have h := aux_join expected mapper rows initState 0
    simpa [initState] using h
  · intro mapper r d hr hm
    have hmem : r.length ∈ [12] := by simp [hr]
    have h1 := aux_replicate_chunk [12] mapper r d hmem hm 9999 [] [] 0 0 0
      (List.replicate 1 r) (by norm_num)
    simp only [process_file_run, if_true, initState]
    rw [show (10001 : Nat) = 9999 + 1 + 1 from by norm_num, List.replicate_add, h1]
    rw [show List.replicate 1 r = [r] from rfl, processRowsAux_cons]
    rw [processRow_ok_noflush [12] mapper [] ([] ++ [[] ++ List.replicate (9999 + 1) d])
      (0 + (9999 + 1)) 0 (0 + (9999 + 1)) r d hmem hm (by simp)]
    rw [processRowsAux_nil]
    simp only [List.nil_append]
    rw [finalizeState_mk_cons d [] [List.replicate (9999 + 1) d] (0 + (9999 + 1) + 1) 0]
    rw [show (9999 : Nat) + 1 = 10000 from by norm_num]
    rfl

/-- C3 witness: 10001 copies of a valid Spain row produce exactly the drop
followed by bulk writes of sizes 10000 and 1. -/
theorem claim_C3_batch_writer_witness :
    (process_file_run true [12] map_es_fields (List.replicate 10001 esSampleRow)).ops
      = [DbOp.drop, DbOp.insertMany (List.replicate 10000 esSampleRec),
          DbOp.insertMany [esSampleRec]] :=
  claim_C3_batch_writer.2 map_es_fields esSampleRow esSampleRec (by decide) (by decide)
